import Mathlib

/-!
TinyG xio: the character-I/O device layer.

A shallow embedding of `firmware/tinyg/xio/xio.h` and
`firmware/tinyg/xio/xio_file.h`.

* C integer constants are natural numbers; a cast to `uint16_t` is a
  reduction modulo `2 ^ 16`, an 8-bit field is reduced modulo `2 ^ 8`.
* An `enum` is embedded enumerator by enumerator with the C numbering rule:
  an enumerator with an initialiser has that value, every other one is its
  predecessor plus one, the first one without initialiser is zero.
* Structures keep the field names of the C structs.
-/

namespace Xio

/-! ## xio.h : device configuration -/

/-- The C type `CONTROL` is `uint16_t`: its width in bits. -/
def CONTROL_BITS : Nat := 16

/-- The cast `(uint16_t) x`. -/
def uint16_t (x : Nat) : Nat := x % 2 ^ 16

/-- The cast `(uint8_t) x`. -/
def uint8_t (x : Nat) : Nat := x % 2 ^ 8

/-- The cast `(uint32_t) x`. -/
def uint32_t (x : Nat) : Nat := x % 2 ^ 32

/-! `enum xioDevice` -/

def XIO_DEV_USB : Nat := 0
def XIO_DEV_RS485 : Nat := XIO_DEV_USB + 1
def XIO_DEV_SPI1 : Nat := XIO_DEV_RS485 + 1
def XIO_DEV_SPI2 : Nat := XIO_DEV_SPI1 + 1
def XIO_DEV_PGM : Nat := XIO_DEV_SPI2 + 1
def XIO_DEV_COUNT : Nat := XIO_DEV_PGM + 1

/-- The devices of `enum xioDevice` in declaration order (without the closing
`XIO_DEV_COUNT`, which is a count and not a device). -/
def xioDeviceEnum : List Nat :=
  [XIO_DEV_USB, XIO_DEV_RS485, XIO_DEV_SPI1, XIO_DEV_SPI2, XIO_DEV_PGM]

def XIO_DEV_USART_COUNT : Nat := 2
def XIO_DEV_USART_OFFSET : Nat := 0
def XIO_DEV_SPI_COUNT : Nat := 2
def XIO_DEV_SPI_OFFSET : Nat := XIO_DEV_USART_COUNT
def XIO_DEV_FILE_COUNT : Nat := 1
def XIO_DEV_FILE_OFFSET : Nat := XIO_DEV_USART_COUNT + XIO_DEV_SPI_COUNT

/-- A device family: the offset of its first device in `ds[]`, the number of
its devices and the declared length of its extended-struct array. -/
structure DevFamily where
  offset : Nat
  count : Nat
  extLen : Nat
  deriving DecidableEq, Repr

/-- The array `xioUsart us[XIO_DEV_USART_COUNT]`. -/
def usartFamily : DevFamily :=
  { offset := XIO_DEV_USART_OFFSET, count := XIO_DEV_USART_COUNT, extLen := XIO_DEV_USART_COUNT }

/-- The array `xioSpi sp[XIO_DEV_SPI_COUNT]`. -/
def spiFamily : DevFamily :=
  { offset := XIO_DEV_SPI_OFFSET, count := XIO_DEV_SPI_COUNT, extLen := XIO_DEV_SPI_COUNT }

/-- The array `xioFile fs[XIO_DEV_FILE_COUNT]`. -/
def fileFamily : DevFamily :=
  { offset := XIO_DEV_FILE_OFFSET, count := XIO_DEV_FILE_COUNT, extLen := XIO_DEV_FILE_COUNT }

def devFamilies : List DevFamily := [usartFamily, spiFamily, fileFamily]

/-- Device index `d` lies in the range `[offset, offset + count)` of `f`. -/
def DevFamily.contains (f : DevFamily) (d : Nat) : Bool :=
  decide (f.offset ≤ d) && decide (d < f.offset + f.count)

/-! ## xio.h : control flag values -/

def XIO_BLOCK : Nat := uint16_t 1 <<< 0
def XIO_NOBLOCK : Nat := uint16_t 1 <<< 1
def XIO_XOFF : Nat := uint16_t 1 <<< 2
def XIO_NOXOFF : Nat := uint16_t 1 <<< 3
def XIO_ECHO : Nat := uint16_t 1 <<< 4
def XIO_NOECHO : Nat := uint16_t 1 <<< 5
def XIO_CRLF : Nat := uint16_t 1 <<< 6
def XIO_NOCRLF : Nat := uint16_t 1 <<< 7
def XIO_IGNORECR : Nat := uint16_t 1 <<< 8
def XIO_NOIGNORECR : Nat := uint16_t 1 <<< 9
def XIO_IGNORELF : Nat := uint16_t 1 <<< 10
def XIO_NOIGNORELF : Nat := uint16_t 1 <<< 11
def XIO_LINEMODE : Nat := uint16_t 1 <<< 12
def XIO_NOLINEMODE : Nat := uint16_t 1 <<< 13

/-- The seven capabilities with their enable and disable mask, in the order
of the header. -/
def controlPairs : List (Nat × Nat) :=
  [ (XIO_BLOCK, XIO_NOBLOCK), (XIO_XOFF, XIO_NOXOFF), (XIO_ECHO, XIO_NOECHO),
    (XIO_CRLF, XIO_NOCRLF), (XIO_IGNORECR, XIO_NOIGNORECR),
    (XIO_IGNORELF, XIO_NOIGNORELF), (XIO_LINEMODE, XIO_NOLINEMODE) ]

/-- All fourteen masks in the order of the header. -/
def controlMasks : List Nat :=
  [ XIO_BLOCK, XIO_NOBLOCK, XIO_XOFF, XIO_NOXOFF, XIO_ECHO, XIO_NOECHO,
    XIO_CRLF, XIO_NOCRLF, XIO_IGNORECR, XIO_NOIGNORECR, XIO_IGNORELF,
    XIO_NOIGNORELF, XIO_LINEMODE, XIO_NOLINEMODE ]

/-! ## xio.h : `enum xioSignals` -/

def XIO_SIG_OK : Nat := 0
def XIO_SIG_EAGAIN : Nat := XIO_SIG_OK + 1
def XIO_SIG_EOL : Nat := XIO_SIG_EAGAIN + 1
def XIO_SIG_EOF : Nat := XIO_SIG_EOL + 1
def XIO_SIG_RESET : Nat := XIO_SIG_EOF + 1
def XIO_SIG_FEEDHOLD : Nat := XIO_SIG_RESET + 1
def XIO_SIG_CYCLE_START : Nat := XIO_SIG_FEEDHOLD + 1
def XIO_SIG_DELETE : Nat := XIO_SIG_CYCLE_START + 1
def XIO_SIG_BELL : Nat := XIO_SIG_DELETE + 1

/-- The enumerators of `enum xioSignals` in declaration order. -/
def xioSignals : List Nat :=
  [ XIO_SIG_OK, XIO_SIG_EAGAIN, XIO_SIG_EOL, XIO_SIG_EOF, XIO_SIG_RESET,
    XIO_SIG_FEEDHOLD, XIO_SIG_CYCLE_START, XIO_SIG_DELETE, XIO_SIG_BELL ]

/-! ## xio.h : ASCII definitions and signal character mappings -/

def NUL : Nat := 0x00
def ETX : Nat := 0x03
def ENQ : Nat := 0x05
def BEL : Nat := 0x07
def BS : Nat := 0x08
def TAB : Nat := 0x09
def LF : Nat := 0x0A
def VT : Nat := 0x0B
def CR : Nat := 0x0D
def XON : Nat := 0x11
def XOFF : Nat := 0x13
def CAN : Nat := 0x18
def ESC : Nat := 0x1B
def DEL : Nat := 0x7F

def CHAR_RESET : Nat := CAN
def CHAR_FEEDHOLD : Nat := ('!').toNat
def CHAR_CYCLE_START : Nat := ('~').toNat

/-! ## xio.h : `enum xioCodes` -/

def XIO_OK : Nat := 0
def XIO_ERR : Nat := XIO_OK + 1
def XIO_EAGAIN : Nat := XIO_ERR + 1
def XIO_NOOP : Nat := XIO_EAGAIN + 1
def XIO_COMPLETE : Nat := XIO_NOOP + 1
def XIO_TERMINATE : Nat := XIO_COMPLETE + 1
def XIO_RESET : Nat := XIO_TERMINATE + 1
def XIO_EOL : Nat := XIO_RESET + 1
def XIO_EOF : Nat := XIO_EOL + 1
def XIO_FILE_NOT_OPEN : Nat := XIO_EOF + 1
def XIO_FILE_SIZE_EXCEEDED : Nat := XIO_FILE_NOT_OPEN + 1
def XIO_NO_SUCH_DEVICE : Nat := XIO_FILE_SIZE_EXCEEDED + 1
def XIO_BUFFER_EMPTY : Nat := XIO_NO_SUCH_DEVICE + 1
def XIO_BUFFER_FULL_FATAL : Nat := XIO_BUFFER_EMPTY + 1
def XIO_BUFFER_FULL_NON_FATAL : Nat := XIO_BUFFER_FULL_FATAL + 1
def XIO_INITIALIZING : Nat := XIO_BUFFER_FULL_NON_FATAL + 1

def XIO_ERRNO_MAX : Nat := XIO_BUFFER_FULL_NON_FATAL

/-- The enumerators of `enum xioCodes` in declaration order. -/
def xioCodes : List Nat :=
  [ XIO_OK, XIO_ERR, XIO_EAGAIN, XIO_NOOP, XIO_COMPLETE, XIO_TERMINATE,
    XIO_RESET, XIO_EOL, XIO_EOF, XIO_FILE_NOT_OPEN, XIO_FILE_SIZE_EXCEEDED,
    XIO_NO_SUCH_DEVICE, XIO_BUFFER_EMPTY, XIO_BUFFER_FULL_FATAL,
    XIO_BUFFER_FULL_NON_FATAL, XIO_INITIALIZING ]

/-! ## xio_file.h : file device configuration -/

def PGM_INIT_bm : Nat := XIO_BLOCK ||| XIO_CRLF ||| XIO_LINEMODE
def PGM_ADDR_MAX : Nat := 0x4000

/-- The file-size limit named in the first note on `struct xioFILE`. -/
def FILE_NOTE_MAX_CHARS : Nat := 65535

/-- The struct `xioFILE`: the file-type device control struct. The program
memory behind `filebase_P` is the list of its bytes. -/
structure xioFile where
  fflags : Nat
  rd_offset : Nat
  wr_offset : Nat
  max_offset : Nat
  filebase_P : List Nat
  deriving DecidableEq, Repr

/-! ## xio.h : the common device struct -/

/-- The struct `xioDEVICE`: private working data, configuration flags and
operating flags. The `uint8_t` flags hold truth values and are booleans here;
`buf` is the text written so far into the bound text buffer and `len` the
number of its characters; the stdio and function bindings are passed to the
operations as arguments. -/
structure xioDevice where
  dev : Nat
  c : Nat
  size : Nat
  buf : List Nat
  len : Nat
  signal : Nat
  flag_block : Bool
  flag_xoff : Bool
  flag_echo : Bool
  flag_crlf : Bool
  flag_ignorecr : Bool
  flag_ignorelf : Bool
  flag_linemode : Bool
  flag_in_line : Bool
  flag_eol : Bool
  flag_eof : Bool
  deriving DecidableEq, Repr

/-! ## Signal decoder -/

/-- Modelled from the spec: the fixed mappings of the Signal Decoder (§4.2),
whose code is not in the two headers. The bytes are the header's character
definitions: cancel to reset, "!" to feedhold, "~" to cycle start, backspace
and delete to delete-character, bell to bell. -/
def signalTable : List (Nat × Nat) :=
  [ (CHAR_RESET, XIO_SIG_RESET), (CHAR_FEEDHOLD, XIO_SIG_FEEDHOLD),
    (CHAR_CYCLE_START, XIO_SIG_CYCLE_START), (BS, XIO_SIG_DELETE),
    (DEL, XIO_SIG_DELETE), (BEL, XIO_SIG_BELL) ]

/-- The reserved control bytes: the bytes the signal table maps. -/
def reservedChars : List Nat := signalTable.map Prod.fst

/-- Modelled from the spec: the Signal Decoder (§4.2), a pure mapping from a
received byte to a signal; a byte the table does not name gives
`XIO_SIG_OK`. -/
def xio_signal (c : Nat) : Nat :=
  match signalTable.lookup c with
  | some sig => sig
  | none => XIO_SIG_OK

/-! ## Byte sources -/

/-- What a byte source answers to one fetch (§4.3 steps 1 and 2): a byte,
"no data yet", or exhaustion. -/
inductive Fetch where
  | byte (c : Nat)
  | noData
  | exhausted
  deriving DecidableEq, Repr

/-- Modelled from the spec: the byte source of a live transport (§5), which is
not in the two headers: the bytes already received, oldest first; an empty
queue answers "no data yet". -/
def xio_getc_rx (q : List Nat) : Fetch × List Nat :=
  match q with
  | [] => (Fetch.noData, [])
  | c :: rest => (Fetch.byte c, rest)

/-- Modelled from the spec: `xio_putc_pgm` (§4.5 write_byte), declared in
xio_file.h ("always returns ERROR") without its body: the write fails with
the generic error code and the device is left as it was. -/
def xio_putc_pgm (_c : Nat) (f : xioFile) : Nat × xioFile := (XIO_ERR, f)

/-! ## Line reader -/

/-- The results of one read_line call (§6): would-block, end-of-line with
data, end-of-file without data, buffer-full, or an in-band control signal.
`not_specified` marks the one case for which the spec names no result: the
source is exhausted while bytes are pending. -/
inductive ReadLine where
  | would_block
  | end_of_line
  | end_of_file
  | buffer_full
  | control (sig : Nat)
  | not_specified
  deriving DecidableEq, Repr

/-- Modelled from the spec: the ignore rules of §4.3 step 4, whose code is not
in the two headers: with ignore-CR set a CR is dropped, with ignore-LF set an
LF is dropped. -/
def xio_ignored (d : xioDevice) (c : Nat) : Bool :=
  (d.flag_ignorecr && decide (c = CR)) || (d.flag_ignorelf && decide (c = LF))

/-- Modelled from the spec: the echo rule of §4.3 step 7, whose code is not in
the two headers: with echo enabled every fetched byte is mirrored to the
echo sink. -/
def xio_echo (d : xioDevice) (sink : List Nat) (c : Nat) : List Nat :=
  if d.flag_echo then sink ++ [c] else sink

/-- Modelled from the spec: appending a byte (§4.3 step 6), whose code is not
in the two headers: the byte becomes the last-seen character and the last
byte of the text, the current length grows by one and a line is in
progress. -/
def xio_append (d : xioDevice) (c : Nat) : xioDevice :=
  { d with c := c, buf := d.buf ++ [c], len := d.len + 1, flag_in_line := true }

/-- Modelled from the spec: closing a line at the terminator byte `c` (§4.3
step 5), whose code is not in the two headers: the terminator becomes the
last-seen character, the in-line flag is cleared, the end-of-line flag set;
text and length stay as accumulated. -/
def xio_close (d : xioDevice) (c : Nat) : xioDevice :=
  { d with c := c, flag_in_line := false, flag_eol := true, flag_eof := false,
           signal := XIO_SIG_EOL }

/-- Modelled from the spec: CR-then-LF closes one line (§4.3 step 4). The line
is closed at the CR; an LF that arrives next, before any byte of a new line,
is the second byte of that terminator. -/
def xio_crlf_tail (d : xioDevice) (c : Nat) : Bool :=
  !d.flag_in_line && decide (d.c = CR) && decide (c = LF)

/-- Modelled from the spec: the Line Reader state machine (§4.3), whose code
is not in the two headers. One round of the loop fetches one byte from the
bound byte source `getc` and applies steps 1 to 7 in order. `fuel` bounds the
number of rounds; `none` means the call has not returned within them (a
blocking device waiting for data). -/
def xio_gets_loop {σ : Type} (getc : σ → Fetch × σ) :
    Nat → xioDevice → σ → List Nat → Option (ReadLine × xioDevice × σ × List Nat)
  | 0, _, _, _ => none
  | fuel + 1, d, s, sink =>
    match getc s with
    | (Fetch.noData, s1) =>
      if d.flag_block then xio_gets_loop getc fuel d s1 sink
      else some (ReadLine.would_block, { d with signal := XIO_SIG_EAGAIN }, s1, sink)
    | (Fetch.exhausted, s1) =>
      if d.len = 0 then
        some (ReadLine.end_of_file,
          { d with flag_in_line := false, flag_eol := false, flag_eof := true,
                   signal := XIO_SIG_EOF }, s1, sink)
      else some (ReadLine.not_specified, d, s1, sink)
    | (Fetch.byte c, s1) =>
      if xio_signal c ≠ XIO_SIG_OK then
        some (ReadLine.control (xio_signal c), { d with signal := xio_signal c }, s1,
          xio_echo d sink c)
      else if xio_ignored d c then
        xio_gets_loop getc fuel d s1 (xio_echo d sink c)
      else if d.flag_linemode && (decide (c = CR) || decide (c = LF)) then
        if xio_crlf_tail d c then
          xio_gets_loop getc fuel { d with c := c } s1 (xio_echo d sink c)
        else some (ReadLine.end_of_line, xio_close d c, s1, xio_echo d sink c)
      else if d.size < d.len + 1 + 1 then
        some (ReadLine.buffer_full, d, s1, xio_echo d sink c)
      else
        xio_gets_loop getc fuel (xio_append d c) s1 (xio_echo d sink c)

/-- Modelled from the spec: the device at the start of a read_line call
(§4.3, IDLE and ACCUMULATING), whose code is not in the two headers: a line
in progress is resumed; otherwise assembly starts in the caller's buffer of
capacity `size` with nothing accumulated. -/
def xio_gets_start (d : xioDevice) (size : Nat) : xioDevice :=
  if d.flag_in_line then d
  else { d with size := size, buf := [], len := 0, flag_eol := false, flag_eof := false,
                signal := XIO_SIG_OK }

/-- Modelled from the spec: `xio_gets` (§4.1 read_line), declared in xio.h
without its body: dispatches to the Line Reader bound to the device, with the
device's byte source `getc`. The last component of the result is what was
sent to the echo sink. -/
def xio_gets {σ : Type} (getc : σ → Fetch × σ) (fuel : Nat) (d : xioDevice) (size : Nat)
    (s : σ) : Option (ReadLine × xioDevice × σ × List Nat) :=
  xio_gets_loop getc fuel (xio_gets_start d size) s []

/-- A device descriptor in line mode with every other flag clear and no line
in progress. -/
def linemodeDevice : xioDevice :=
  { dev := XIO_DEV_PGM, c := 0, size := 0, buf := [], len := 0, signal := XIO_SIG_OK,
    flag_block := false, flag_xoff := false, flag_echo := false, flag_crlf := false,
    flag_ignorecr := false, flag_ignorelf := false, flag_linemode := true,
    flag_in_line := false, flag_eol := false, flag_eof := false }

/-- The bytes of a string. -/
def bytes (text : String) : List Nat := text.toList.map Char.toNat

/-- A file device struct before its first open. -/
def closedFile : xioFile :=
  { fflags := PGM_INIT_bm, rd_offset := 0, wr_offset := 0, max_offset := 0, filebase_P := [] }

/-! ## Control flags, enumerations and tables of the headers -/

/-- C1: the control-flag masks form seven enable/disable pairs; for
capability k = 0..6 the enable mask is exactly bit 2k and the disable mask is
exactly bit 2k+1; the fourteen masks are the two masks of each pair, each is a
single bit below 2^16, any two different masks have bitwise AND 0, and a
request naming the enable or the disable bit of one capability shares no bit
with the masks of another capability. -/
theorem control_masks_paired :
    controlPairs.length = 7 ∧
    (∀ k : Fin 7, controlPairs.get? k.val = some (2 ^ (2 * k.val), 2 ^ (2 * k.val + 1))) ∧
    controlMasks = controlPairs.flatMap (fun p => [p.1, p.2]) ∧
    (∀ i : Fin 14, controlMasks.get? i.val = some (2 ^ i.val) ∧
      2 ^ i.val < 2 ^ CONTROL_BITS) ∧
    (∀ i j : Fin 14, i ≠ j → controlMasks.getD i.val 0 &&& controlMasks.getD j.val 0 = 0) ∧
    (∀ i j : Fin 7, i ≠ j →
      (controlPairs.getD i.val (0, 0)).1 &&&
        ((controlPairs.getD j.val (0, 0)).1 ||| (controlPairs.getD j.val (0, 0)).2) = 0 ∧
      (controlPairs.getD i.val (0, 0)).2 &&&
        ((controlPairs.getD j.val (0, 0)).1 ||| (controlPairs.getD j.val (0, 0)).2) = 0) ∧
    XIO_BLOCK &&& (XIO_XOFF ||| XIO_NOXOFF ||| XIO_ECHO ||| XIO_NOECHO ||| XIO_CRLF |||
      XIO_NOCRLF ||| XIO_IGNORECR ||| XIO_NOIGNORECR ||| XIO_IGNORELF ||| XIO_NOIGNORELF |||
      XIO_LINEMODE ||| XIO_NOLINEMODE) = 0 ∧
    XIO_NOBLOCK &&& (XIO_XOFF ||| XIO_NOXOFF ||| XIO_ECHO ||| XIO_NOECHO ||| XIO_CRLF |||
      XIO_NOCRLF ||| XIO_IGNORECR ||| XIO_NOIGNORECR ||| XIO_IGNORELF ||| XIO_NOIGNORELF |||
      XIO_LINEMODE ||| XIO_NOLINEMODE) = 0 := by
  refine ⟨by decide, by decide, by decide, by decide, by decide, by decide, by decide,
    by decide⟩

/-- C2: the sixteen return codes of xioCodes are numbered consecutively from
0 in the listed order, are pairwise distinct, XIO_OK is zero and
XIO_ERRNO_MAX is 14, the largest code other than XIO_INITIALIZING. -/
theorem xioCodes_numbering :
    xioCodes = List.range 16 ∧ xioCodes.length = 16 ∧ xioCodes.Nodup ∧
    XIO_OK = 0 ∧ XIO_ERR = 1 ∧ XIO_EAGAIN = 2 ∧ XIO_NOOP = 3 ∧ XIO_COMPLETE = 4 ∧
    XIO_TERMINATE = 5 ∧ XIO_RESET = 6 ∧ XIO_EOL = 7 ∧ XIO_EOF = 8 ∧
    XIO_FILE_NOT_OPEN = 9 ∧ XIO_FILE_SIZE_EXCEEDED = 10 ∧ XIO_NO_SUCH_DEVICE = 11 ∧
    XIO_BUFFER_EMPTY = 12 ∧ XIO_BUFFER_FULL_FATAL = 13 ∧ XIO_BUFFER_FULL_NON_FATAL = 14 ∧
    XIO_INITIALIZING = 15 ∧
    XIO_ERRNO_MAX = 14 ∧ XIO_ERRNO_MAX ∈ xioCodes ∧ XIO_ERRNO_MAX ≠ XIO_INITIALIZING ∧
    (∀ c ∈ xioCodes, c ≠ XIO_INITIALIZING → c ≤ XIO_ERRNO_MAX) := by
  refine ⟨by decide, by decide, by decide, rfl, rfl, rfl, rfl, rfl, rfl, rfl, rfl, rfl, rfl,
    rfl, rfl, rfl, rfl, rfl, rfl, rfl, by decide, by decide, by decide⟩

/-- C3: the signal enumeration xioSignals has exactly nine pairwise distinct
values, numbered 0..8 in the listed order, and every value fits the 8-bit
signal field of the device descriptor. -/
theorem xioSignals_numbering :
    xioSignals = List.range 9 ∧ xioSignals.length = 9 ∧ xioSignals.Nodup ∧
    XIO_SIG_OK = 0 ∧ XIO_SIG_EAGAIN = 1 ∧ XIO_SIG_EOL = 2 ∧ XIO_SIG_EOF = 3 ∧
    XIO_SIG_RESET = 4 ∧ XIO_SIG_FEEDHOLD = 5 ∧ XIO_SIG_CYCLE_START = 6 ∧
    XIO_SIG_DELETE = 7 ∧ XIO_SIG_BELL = 8 ∧
    (∀ v ∈ xioSignals, v < 2 ^ 8 ∧ uint8_t v = v) := by
  refine ⟨by decide, by decide, by decide, rfl, rfl, rfl, rfl, rfl, rfl, rfl, rfl, rfl,
    by decide⟩

/-- A byte the signal table does not name decodes to no signal. -/
theorem xio_signal_unreserved (c : Nat) (h : c ∉ reservedChars) :
    xio_signal c = XIO_SIG_OK := by
  have hr : reservedChars = [24, 33, 126, 8, 127, 7] := by decide
  rw [hr] at h
  simp only [List.mem_cons, List.mem_singleton, List.not_mem_nil, or_false, not_or] at h
  obtain ⟨h1, h2, h3, h4, h5, h6⟩ := h
  have ht : signalTable = [(24, 4), (33, 5), (126, 6), (8, 7), (127, 7), (7, 8)] := by decide
  have hb : ∀ k : Nat, c ≠ k → (c == k) = false := fun k hk => by simpa using hk
  unfold xio_signal
  rw [ht]
  simp [List.lookup, hb _ h1, hb _ h2, hb _ h3, hb _ h4, hb _ h5, hb _ h6]

/-- C4: the signal decoder given by the header's character definitions is a
function on bytes: CAN = 0x18 decodes to reset, "!" = 0x21 to feedhold,
"~" = 0x7E to cycle start, BS = 0x08 and DEL = 0x7F to delete-character,
BEL = 0x07 to bell and every other byte to XIO_SIG_OK; the six reserved bytes
are pairwise distinct, none is CR, LF or NUL, so every table entry is what
the decoder answers and no line terminator is a signal. -/
theorem signal_decoder_mapping :
    (CHAR_RESET = CAN ∧ CAN = 0x18 ∧ CHAR_FEEDHOLD = 0x21 ∧ CHAR_CYCLE_START = 0x7E ∧
      BS = 0x08 ∧ DEL = 0x7F ∧ BEL = 0x07 ∧ CR = 0x0D ∧ LF = 0x0A ∧ NUL = 0) ∧
    (xio_signal CHAR_RESET = XIO_SIG_RESET ∧ xio_signal CHAR_FEEDHOLD = XIO_SIG_FEEDHOLD ∧
      xio_signal CHAR_CYCLE_START = XIO_SIG_CYCLE_START ∧ xio_signal BS = XIO_SIG_DELETE ∧
      xio_signal DEL = XIO_SIG_DELETE ∧ xio_signal BEL = XIO_SIG_BELL) ∧
    (∀ c : Nat, c ∉ reservedChars → xio_signal c = XIO_SIG_OK) ∧
    (reservedChars = [CHAR_RESET, CHAR_FEEDHOLD, CHAR_CYCLE_START, BS, DEL, BEL] ∧
      reservedChars.Nodup ∧ CR ∉ reservedChars ∧ LF ∉ reservedChars ∧
      NUL ∉ reservedChars) ∧
    (∀ p ∈ signalTable, xio_signal p.1 = p.2 ∧ p.2 ≠ XIO_SIG_OK) ∧
    (∀ p ∈ signalTable, ∀ q ∈ signalTable, p.1 = q.1 → p.2 = q.2) ∧
    (xio_signal CR = XIO_SIG_OK ∧ xio_signal LF = XIO_SIG_OK ∧ xio_signal NUL = XIO_SIG_OK) := by
  refine ⟨by decide, by decide, xio_signal_unreserved, by decide, by decide, by decide,
    by decide⟩

/-- C5: the device table lines up: the device indices are exactly
0 .. XIO_DEV_COUNT-1 with XIO_DEV_COUNT = 5 the sum of the three family
counts; each family offset is the index of the family's first device; and
every device index below XIO_DEV_COUNT lies in the range of exactly one
family, where its distance from the offset indexes the family's
extended-struct array (us[2], sp[2], fs[1]). -/
theorem device_table_lines_up :
    xioDeviceEnum = List.range XIO_DEV_COUNT ∧ XIO_DEV_COUNT = 5 ∧
    XIO_DEV_COUNT = XIO_DEV_USART_COUNT + XIO_DEV_SPI_COUNT + XIO_DEV_FILE_COUNT ∧
    (XIO_DEV_USB = XIO_DEV_USART_OFFSET ∧ XIO_DEV_USART_OFFSET = 0) ∧
    (XIO_DEV_SPI1 = XIO_DEV_SPI_OFFSET ∧ XIO_DEV_SPI_OFFSET = 2) ∧
    (XIO_DEV_PGM = XIO_DEV_FILE_OFFSET ∧ XIO_DEV_FILE_OFFSET = 4) ∧
    (usartFamily.extLen = 2 ∧ spiFamily.extLen = 2 ∧ fileFamily.extLen = 1) ∧
    (∀ d : Fin XIO_DEV_COUNT,
      (devFamilies.filter (fun f => f.contains d.val)).length = 1 ∧
      ∀ f ∈ devFamilies, f.contains d.val = true → d.val - f.offset < f.extLen) ∧
    (∀ f ∈ devFamilies, ∀ d : Nat, f.contains d = true → d < XIO_DEV_COUNT) := by
  refine ⟨by decide, by decide, by decide, by decide, by decide, by decide, by decide,
    by decide, ?_⟩
  intro f hf d hd
  have hfam : f = usartFamily ∨ f = spiFamily ∨ f = fileFamily := by
    simpa [devFamilies] using hf
  rcases hfam with h | h | h <;> subst h <;>
    simp [DevFamily.contains, usartFamily, spiFamily, fileFamily, XIO_DEV_USART_OFFSET,
      XIO_DEV_USART_COUNT, XIO_DEV_SPI_OFFSET, XIO_DEV_SPI_COUNT, XIO_DEV_FILE_OFFSET,
      XIO_DEV_FILE_COUNT] at hd <;>
    simp [XIO_DEV_COUNT, XIO_DEV_PGM, XIO_DEV_SPI2, XIO_DEV_SPI1, XIO_DEV_RS485,
      XIO_DEV_USB] <;> omega

/-- C6: writing a byte to the program-memory file device always fails: for
every byte and every state of the file device the result is the error code,
which is not XIO_OK, and the device (offsets, flags, backing data) is
unchanged. -/
theorem xio_putc_pgm_always_fails (c : Nat) (f : xioFile) :
    (xio_putc_pgm c f).1 = XIO_ERR ∧ (xio_putc_pgm c f).1 ≠ XIO_OK ∧
    (xio_putc_pgm c f).2 = f ∧
    (xio_putc_pgm c f).2.rd_offset = f.rd_offset ∧
    (xio_putc_pgm c f).2.wr_offset = f.wr_offset ∧
    (xio_putc_pgm c f).2.max_offset = f.max_offset ∧
    (xio_putc_pgm c f).2.filebase_P = f.filebase_P := by
  refine ⟨rfl, ?_, rfl, rfl, rfl, rfl, rfl⟩
  simp [xio_putc_pgm, XIO_ERR, XIO_OK]

/-- C8 as the usage table has it fails: the header does not define XOFF as
0x11 and XON as 0x13. -/
theorem xon_xoff_not_as_table : ¬ (XOFF = 0x11 ∧ XON = 0x13) := by decide

/-- C8, amended: the header defines XON as 0x11 (DC1, ctl-Q) and XOFF as
0x13 (DC3, ctl-S); the two are distinct and neither is a reserved signal
byte. -/
theorem xon_xoff_values :
    XON = 0x11 ∧ XOFF = 0x13 ∧ XON ≠ XOFF ∧ XON ∉ reservedChars ∧ XOFF ∉ reservedChars := by
  decide

/-- C9 as the usage table has it fails: the header's feedhold character is
not "@" (0x40). -/
theorem feedhold_not_at_sign :
    ¬ (CHAR_FEEDHOLD = 0x40 ∧ CHAR_CYCLE_START = 0x7E ∧ CHAR_RESET = 0x18) := by decide

/-- C9, amended: the header's feedhold character CHAR_FEEDHOLD is "!"
(0x21), not "@" (0x40); the cycle-start character is "~" (0x7E) and the
software-reset character is CAN (0x18). -/
theorem signal_chars_values :
    CHAR_FEEDHOLD = 0x21 ∧ CHAR_FEEDHOLD = ('!').toNat ∧ CHAR_FEEDHOLD ≠ ('@').toNat ∧
    ('@').toNat = 0x40 ∧ CHAR_CYCLE_START = 0x7E ∧ CHAR_CYCLE_START = ('~').toNat ∧
    CHAR_RESET = CAN ∧ CHAR_RESET = 0x18 := by
  decide

/-- C10: PGM_ADDR_MAX is 0x4000 = 16384 = 16 * 1024, does not exceed the
65,535-character limit of the file control struct and is below 2^32; with
max_offset = PGM_ADDR_MAX every read offset up to max_offset is representable
in the 32-bit rd_offset field and its successor does not wrap modulo 2^32. -/
theorem pgm_addr_max_offsets (f : xioFile) (hmax : f.max_offset = PGM_ADDR_MAX)
    (hrd : f.rd_offset ≤ f.max_offset) :
    (PGM_ADDR_MAX = 0x4000 ∧ PGM_ADDR_MAX = 16384 ∧ PGM_ADDR_MAX = 16 * 1024 ∧
      PGM_ADDR_MAX ≤ FILE_NOTE_MAX_CHARS ∧ PGM_ADDR_MAX < 2 ^ 32) ∧
    f.rd_offset < 2 ^ 32 ∧ uint32_t f.rd_offset = f.rd_offset ∧
    f.rd_offset + 1 < 2 ^ 32 ∧ uint32_t (f.rd_offset + 1) = f.rd_offset + 1 := by
  have hv : PGM_ADDR_MAX = 16384 := rfl
  rw [hmax, hv] at hrd
  refine ⟨by decide, by omega, ?_, by omega, ?_⟩
  · exact Nat.mod_eq_of_lt (by omega)
  · exact Nat.mod_eq_of_lt (by omega)

/-- C10 at a file device whose read offset has reached the ceiling. -/
theorem pgm_addr_max_offsets_witness :
    ({ closedFile with max_offset := PGM_ADDR_MAX, rd_offset := 16384 } : xioFile).rd_offset
        ≤ PGM_ADDR_MAX ∧
    uint32_t ({ closedFile with max_offset := PGM_ADDR_MAX, rd_offset := 16384 } :
        xioFile).rd_offset = 16384 ∧
    uint32_t (({ closedFile with max_offset := PGM_ADDR_MAX, rd_offset := 16384 } :
        xioFile).rd_offset + 1) = 16385 :=
  ⟨by decide,
   (pgm_addr_max_offsets { closedFile with max_offset := PGM_ADDR_MAX, rd_offset := 16384 }
      rfl (by decide)).2.2.1,
   (pgm_addr_max_offsets { closedFile with max_offset := PGM_ADDR_MAX, rd_offset := 16384 }
      rfl (by decide)).2.2.2.2⟩

/-! ## Line reader: a terminated line is delivered -/

/-- The reader keeps the spec's invariant (§3): from a descriptor whose length
counts its text and is within capacity, every result of the loop has length
equal to the number of bytes held and at most the capacity. -/
theorem xio_gets_loop_length_le_capacity {σ : Type} (getc : σ → Fetch × σ) :
    ∀ (fuel : Nat) (d : xioDevice) (st : σ) (sink : List Nat)
      (res : ReadLine) (d1 : xioDevice) (st1 : σ) (sink1 : List Nat),
      d.len = d.buf.length → d.len ≤ d.size →
      xio_gets_loop getc fuel d st sink = some (res, d1, st1, sink1) →
      d1.len = d1.buf.length ∧ d1.len ≤ d1.size ∧ d1.size = d.size := by
  intro fuel
  induction fuel with
  | zero =>
    intro d st sink res d1 st1 sink1 _ _ h
    simp [xio_gets_loop] at h
  | succ n ih =>
    intro d st sink res d1 st1 sink1 hlen hcap h
    rcases hg : getc st with ⟨f, s1⟩
    cases f with
    | noData =>
      simp only [xio_gets_loop, hg] at h
      split_ifs at h
      · exact ih d s1 sink res d1 st1 sink1 hlen hcap h
      · simp only [Option.some.injEq, Prod.mk.injEq] at h
        obtain ⟨_, hd, _, _⟩ := h
        subst hd
        exact ⟨hlen, hcap, rfl⟩
    | exhausted =>
      simp only [xio_gets_loop, hg] at h
      split_ifs at h
      · simp only [Option.some.injEq, Prod.mk.injEq] at h
        obtain ⟨_, hd, _, _⟩ := h
        subst hd
        exact ⟨hlen, hcap, rfl⟩
      · simp only [Option.some.injEq, Prod.mk.injEq] at h
        obtain ⟨_, hd, _, _⟩ := h
        subst hd
        exact ⟨hlen, hcap, rfl⟩
    | byte c =>
      simp only [xio_gets_loop, hg] at h
      split_ifs at h with h1 h2 h3 h4 h5
      · simp only [Option.some.injEq, Prod.mk.injEq] at h
        obtain ⟨_, hd, _, _⟩ := h
        subst hd
        exact ⟨hlen, hcap, rfl⟩
      · exact ih d s1 _ res d1 st1 sink1 hlen hcap h
      · exact ih { d with c := c } s1 _ res d1 st1 sink1 hlen hcap h
      · simp only [Option.some.injEq, Prod.mk.injEq] at h
        obtain ⟨_, hd, _, _⟩ := h
        subst hd
        exact ⟨hlen, hcap, rfl⟩
      · simp only [Option.some.injEq, Prod.mk.injEq] at h
        obtain ⟨_, hd, _, _⟩ := h
        subst hd
        exact ⟨hlen, hcap, rfl⟩
      · have hstep := ih (xio_append d c) s1 _ res d1 st1 sink1
          (by simp [xio_append, hlen]) (by simp only [xio_append]; omega) h
        exact ⟨hstep.1, hstep.2.1, hstep.2.2⟩

/-- More bytes than the capacity holds give buffer-full: 300 ordinary bytes
into a buffer of capacity 258 stop at 257 bytes held, with length 257. -/
theorem xio_gets_buffer_full :
    (xio_gets xio_getc_rx 300 linemodeDevice 258 (List.replicate 300 0x61 ++ [CR])).map
        (fun res => (res.1, res.2.1.len, res.2.1.buf))
      = some (ReadLine.buffer_full, 257, List.replicate 257 0x61) := by
  set_option maxRecDepth 100000 in decide

/-- A line that arrives in two polls is delivered whole: "ab" gives
would-block with the line in progress, and after "cd" and LF have arrived the
next read_line delivers "abcd". -/
theorem xio_gets_two_polls :
    (xio_gets xio_getc_rx 10 linemodeDevice 80 (bytes "ab")).map
        (fun res => (res.1, res.2.1.buf, res.2.1.flag_in_line))
      = some (ReadLine.would_block, bytes "ab", true) ∧
    ((xio_gets xio_getc_rx 10 linemodeDevice 80 (bytes "ab")).bind
        (fun res => xio_gets xio_getc_rx 10 res.2.1 80 (res.2.2.1 ++ bytes "cd\n"))).map
        (fun res => (res.1, res.2.1.buf, res.2.1.len))
      = some (ReadLine.end_of_line, bytes "abcd", 4) := by
  refine ⟨by decide, by decide⟩

/-- CR then LF closes one line: on "ab" CR LF "cd" CR LF the first read_line
delivers "ab" and the second delivers "cd", with no empty line between. -/
theorem xio_gets_crlf_one_line :
    (xio_gets xio_getc_rx 10 linemodeDevice 80 (bytes "ab\r\ncd\r\n")).map
        (fun res => (res.1, res.2.1.buf))
      = some (ReadLine.end_of_line, bytes "ab") ∧
    ((xio_gets xio_getc_rx 10 linemodeDevice 80 (bytes "ab\r\ncd\r\n")).bind
        (fun res => xio_gets xio_getc_rx 10 res.2.1 80 res.2.2.1)).map
        (fun res => (res.1, res.2.1.buf))
      = some (ReadLine.end_of_line, bytes "cd") := by
  refine ⟨by decide, by decide⟩

/-- A CR that the device is set to ignore is no terminator of that device: on
"a" CR a non-blocking line-mode device with ignore-CR keeps "a" as a line in
progress and answers would-block. -/
theorem xio_gets_ignored_cr_is_dropped :
    (xio_gets xio_getc_rx 10 { linemodeDevice with flag_ignorecr := true } 80
        (bytes "a\r")).map (fun res => (res.1, res.2.1.buf, res.2.1.len, res.2.1.flag_in_line))
      = some (ReadLine.would_block, bytes "a", 1, true) := by
  decide

/-! ## xio_file.h : the initial control mask of the file device -/

/-- C11: the file device's initial control mask PGM_INIT_bm is
XIO_BLOCK | XIO_CRLF | XIO_LINEMODE = 0x1041 (4161): among the fourteen
control masks it contains exactly the three enable bits for blocking reads,
LF-to-CRLF translation and line mode (bits 0, 6 and 12) and nothing else; it
contains no disable bit and no enable bit of another capability (not XON/XOFF
flow control, not echo), and for no capability both its enable and its
disable bit. -/
theorem pgm_init_mask :
    (PGM_INIT_bm = 0x1041 ∧ PGM_INIT_bm = 4161 ∧ PGM_INIT_bm < 2 ^ CONTROL_BITS ∧
      PGM_INIT_bm = 2 ^ 0 + 2 ^ 6 + 2 ^ 12) ∧
    (PGM_INIT_bm &&& XIO_BLOCK = XIO_BLOCK ∧ PGM_INIT_bm &&& XIO_CRLF = XIO_CRLF ∧
      PGM_INIT_bm &&& XIO_LINEMODE = XIO_LINEMODE) ∧
    (∀ m ∈ controlMasks,
      (PGM_INIT_bm &&& m ≠ 0 ↔ m = XIO_BLOCK ∨ m = XIO_CRLF ∨ m = XIO_LINEMODE)) ∧
    (∀ b : Fin 16, (PGM_INIT_bm.testBit b.val = true ↔ b.val = 0 ∨ b.val = 6 ∨ b.val = 12)) ∧
    (∀ p ∈ controlPairs, PGM_INIT_bm &&& p.2 = 0) ∧
    (∀ p ∈ controlPairs, PGM_INIT_bm &&& p.1 ≠ 0 →
      p = (XIO_BLOCK, XIO_NOBLOCK) ∨ p = (XIO_CRLF, XIO_NOCRLF) ∨
      p = (XIO_LINEMODE, XIO_NOLINEMODE)) ∧
    (PGM_INIT_bm &&& XIO_XOFF = 0 ∧ PGM_INIT_bm &&& XIO_NOXOFF = 0 ∧
      PGM_INIT_bm &&& XIO_ECHO = 0 ∧ PGM_INIT_bm &&& XIO_NOECHO = 0 ∧
      PGM_INIT_bm &&& XIO_IGNORECR = 0 ∧ PGM_INIT_bm &&& XIO_IGNORELF = 0) ∧
    (∀ p ∈ controlPairs, ¬ (PGM_INIT_bm &&& p.1 ≠ 0 ∧ PGM_INIT_bm &&& p.2 ≠ 0)) := by
  refine ⟨by decide, by decide, by decide, by decide, by decide, by decide, by decide,
    by decide⟩

end Xio
